import Mathlib

/-!
Verification of `tools/train_mlflow.py` from the nanodet repository.

The script is straight-line glue code: it parses CLI arguments, loads a
configuration, validates the class count, builds datasets/dataloaders,
constructs a training task, optionally loads (and possibly converts) a
checkpoint, optionally constructs an MLFlow logger, builds a trainer and
calls `fit`.  We embed `main` as a function from its inputs (parsed
arguments, loaded config, and the behaviour of the external library calls
`torch.load` and `mlflow`'s `resolve_tags`) to the sequence of observable
actions it performs, together with the uncaught exception it ends with,
if any.
-/

namespace TrainMlflow

/-! ## Data model: the configuration object, as read by `main` -/

/-- `cfg.model.arch.head`: only `num_classes` is read by this file. -/
structure Head where
  num_classes : Nat
deriving Repr, DecidableEq

/-- `cfg.model.arch`. -/
structure Arch where
  head : Head
deriving Repr, DecidableEq

/-- `cfg.model`. -/
structure ModelCfg where
  arch : Arch
deriving Repr, DecidableEq

/-- `cfg.schedule`: `load_model` models the optional presence of the
`load_model` key (with its checkpoint path), `resume` the presence of the
`resume` key. -/
structure ScheduleCfg where
  load_model : Option String
  resume : Bool
  total_epochs : Nat
  val_intervals : Nat
deriving Repr, DecidableEq

/-- `cfg.data`: the train and val dataset specs are consumed opaquely by
`build_dataset`, so we keep them as opaque strings. -/
structure DataCfg where
  train : String
  val : String
deriving Repr, DecidableEq

/-- `cfg.device`. -/
structure DeviceCfg where
  batchsize_per_gpu : Nat
  workers_per_gpu : Nat
  gpu_ids : List Int
deriving Repr, DecidableEq

/-- `cfg.log`. -/
structure LogCfg where
  interval : Nat
deriving Repr, DecidableEq

/-- The loaded configuration object, restricted to the fields
`tools/train_mlflow.py` reads. -/
structure Config where
  model : ModelCfg
  class_names : List String
  save_dir : String
  schedule : ScheduleCfg
  data : DataCfg
  device : DeviceCfg
  log : LogCfg
deriving Repr, DecidableEq

/-- The parsed command-line arguments (result of `parse_args`). -/
structure Args where
  config : String
  local_rank : Int
  seed : Option Int
  use_mlflow : Bool
  mlflow_uri : String
  mlflow_run : String
  mlflow_experiment : String
deriving Repr, DecidableEq

/-- A checkpoint is a mapping; the only thing `main` inspects is its key
set, so we record the keys. -/
structure Checkpoint where
  keys : List String
deriving Repr, DecidableEq

/-- What is handed to `load_model_weight`: either the raw loaded
checkpoint, or the result of `convert_old_model` on it.  The conversion
itself lives outside this file, so we track it symbolically. -/
inductive CkptForm where
  | raw (c : Checkpoint)
  | converted (c : Checkpoint)
deriving Repr, DecidableEq

/-- The mlflow constant `MLFLOW_RUN_NAME` (the run-name tag key). -/
def MLFLOW_RUN_NAME : String := "mlflow.runName"

/-- The `logger=` argument of `pl.Trainer`: either a constructed
`MLFlowLogger` (with the arguments of its constructor) or the literal
`True`. -/
inductive LoggerArg where
  | mlf (experiment_name : String) (tags : List (String × String)) (tracking_uri : String)
  | boolTrue
deriving Repr, DecidableEq

/-- The arguments `main` passes to the `pl.Trainer` constructor. -/
structure TrainerArgs where
  default_root_dir : String
  max_epochs : Nat
  gpus : List Int
  check_val_every_n_epoch : Nat
  accelerator : String
  log_every_n_steps : Nat
  num_sanity_val_steps : Nat
  resume_from_checkpoint : Option String
  bar_refresh : Nat
  benchmark : Bool
  logger : LoggerArg
deriving Repr, DecidableEq

/-- A dataset as returned by `build_dataset(spec, mode)`: consumed
opaquely, so identified by the spec it was built from and its mode. -/
structure Dataset where
  spec : String
  mode : String
deriving Repr, DecidableEq

/-- The observable actions `main` performs, in program order. -/
inductive Event where
  | loadConfigEv (path : String)
  | mkdirEv (local_rank : Int) (dir : String)
  | loggerCtorEv (local_rank : Int) (dir : String)
  | logEv (msg : String)
  | seedEverythingEv (seed : Int)
  | buildDatasetEv (spec : String) (mode : String)
  | buildEvaluatorEv
  | dataLoaderEv (ds : Dataset) (batch_size : Nat) (shuffle : Bool)
      (num_workers : Nat) (pin_memory : Bool) (collate_fn : String) (drop_last : Bool)
  | taskCtorEv (log_style : String)
  | torchLoadEv (path : String)
  | warnEv (msg : String)
  | convertOldModelEv (c : Checkpoint)
  | loadModelWeightEv (ck : CkptForm)
  | resolveTagsEv (user_specified_tags : List (String × String))
  | mlflowLoggerCtorEv (experiment_name : String) (tags : List (String × String)) (tracking_uri : String)
  | trainerCtorEv (t : TrainerArgs)
  | fitEv
deriving Repr, DecidableEq

/-! ## The embedded program -/

/-- `os.path.join(a, b)` for the non-absolute second component used here. -/
def pathJoin (a b : String) : String :=
  if a = "" then b
  else if a.endsWith "/" then a ++ b
  else a ++ "/" ++ b

/-- The `ValueError` message raised on a class-count mismatch
(`'... must equal ... but got {} and {}'.format(...)` after formatting). -/
def classMismatchMsg (cfg : Config) : String :=
  "cfg.model.arch.head.num_classes must equal len(cfg.class_names), but got "
    ++ toString cfg.model.arch.head.num_classes ++ " and "
    ++ toString cfg.class_names.length

/-- The deprecation warning text for legacy checkpoints. -/
def deprecationMsg : String :=
  "Warning! Old .pth checkpoint is deprecated. Convert the checkpoint with tools/convert_old_checkpoint.py "

/-- `model_resume_path = os.path.join(cfg.save_dir, 'model_last.ckpt') if 'resume' in cfg.schedule else None`. -/
def model_resume_path (cfg : Config) : Option String :=
  if cfg.schedule.resume then some (pathJoin cfg.save_dir "model_last.ckpt") else none

/-- The `log_style` chosen for `TrainingTask`. -/
def logStyleOf (args : Args) : String :=
  if args.use_mlflow then "Lightning" else "NanoDet"

/-- The `refresh_rate` of the `ProgressBar` callback. -/
def barRefreshOf (args : Args) : Nat :=
  if args.use_mlflow then 1 else 0

/-- The `user_specified_tags` dict after `user_specified_tags[MLFLOW_RUN_NAME] = args.mlflow_run`. -/
def userTags (args : Args) : List (String × String) :=
  [(MLFLOW_RUN_NAME, args.mlflow_run)]

/-- The `logger=` argument handed to `pl.Trainer`.  `rt` is the external
`context_registry.resolve_tags`. -/
def usedLogger (rt : List (String × String) → List (String × String))
    (args : Args) : LoggerArg :=
  if args.use_mlflow then
    LoggerArg.mlf args.mlflow_experiment (rt (userTags args)) args.mlflow_uri
  else LoggerArg.boolTrue

/-- The full argument record of the `pl.Trainer(...)` call. -/
def trainerArgsOf (rt : List (String × String) → List (String × String))
    (args : Args) (cfg : Config) : TrainerArgs where
  default_root_dir := cfg.save_dir
  max_epochs := cfg.schedule.total_epochs
  gpus := cfg.device.gpu_ids
  check_val_every_n_epoch := cfg.schedule.val_intervals
  accelerator := "ddp"
  log_every_n_steps := cfg.log.interval
  num_sanity_val_steps := 0
  resume_from_checkpoint := model_resume_path cfg
  bar_refresh := barRefreshOf args
  benchmark := true
  logger := usedLogger rt args

/-- The events of the seed block (`if args.seed is not None: ...`). -/
def seedEvents (args : Args) : List Event :=
  match args.seed with
  | some s => [Event.logEv ("Set random seed to " ++ toString s), Event.seedEverythingEv s]
  | none => []

/-- The events of the `if 'load_model' in cfg.schedule:` block.  `tl`
models the external `torch.load`. -/
def loadModelEvents (tl : String → Checkpoint) (cfg : Config) : List Event :=
  match cfg.schedule.load_model with
  | some path =>
    let ckpt := tl path
    Event.torchLoadEv path ::
      (if "pytorch-lightning_version" ∈ ckpt.keys then
        [Event.loadModelWeightEv (CkptForm.raw ckpt)]
      else
        [Event.warnEv deprecationMsg, Event.convertOldModelEv ckpt,
         Event.loadModelWeightEv (CkptForm.converted ckpt)])
      ++ [Event.logEv ("Loaded model weight from " ++ path)]
  | none => []

/-- The events of the logger-selection block (`if args.use_mlflow: ...`). -/
def mlflowEvents (rt : List (String × String) → List (String × String))
    (args : Args) : List Event :=
  if args.use_mlflow then
    [Event.resolveTagsEv (userTags args),
     Event.mlflowLoggerCtorEv args.mlflow_experiment (rt (userTags args)) args.mlflow_uri]
  else []

/-- The events from `mkdir` up to the `TrainingTask` construction. -/
def setupEvents (args : Args) (cfg : Config) : List Event :=
  [Event.mkdirEv args.local_rank cfg.save_dir,
   Event.loggerCtorEv args.local_rank cfg.save_dir]
  ++ seedEvents args
  ++ [Event.logEv "Setting up data...",
      Event.buildDatasetEv cfg.data.train "train",
      Event.buildDatasetEv cfg.data.val "test",
      Event.buildEvaluatorEv,
      Event.dataLoaderEv ⟨cfg.data.train, "train"⟩ cfg.device.batchsize_per_gpu true
        cfg.device.workers_per_gpu true "collate_function" true,
      Event.dataLoaderEv ⟨cfg.data.val, "test"⟩ cfg.device.batchsize_per_gpu false
        cfg.device.workers_per_gpu true "collate_function" false,
      Event.logEv "Creating model...",
      Event.taskCtorEv (logStyleOf args)]

/-- Everything `main` does after the class-count check succeeds, in
program order. -/
def restTrace (tl : String → Checkpoint)
    (rt : List (String × String) → List (String × String))
    (args : Args) (cfg : Config) : List Event :=
  setupEvents args cfg
  ++ loadModelEvents tl cfg
  ++ mlflowEvents rt args
  ++ [Event.trainerCtorEv (trainerArgsOf rt args cfg), Event.fitEv]

/-- The embedding of `main(args)`: the trace of actions performed and the
uncaught exception it terminates with (`none` = ran to completion).
`tl` is `torch.load`, `rt` is `context_registry.resolve_tags`; the loaded
config object is `cfg`. -/
def main (tl : String → Checkpoint)
    (rt : List (String × String) → List (String × String))
    (args : Args) (cfg : Config) : List Event × Option String :=
  if cfg.model.arch.head.num_classes ≠ cfg.class_names.length then
    ([Event.loadConfigEv args.config], some (classMismatchMsg cfg))
  else
    (Event.loadConfigEv args.config :: restTrace tl rt args cfg, none)

/-! ## Fault-injection semantics

`main` contains no `try`/`except`.  To express that every exception
raised by an operation it calls propagates unhandled, we re-run the same
straight-line code under a fault oracle: `faults e = some err` means the
operation `e` raises the exception `err` instead of completing. -/

/-- Run a list of operations under a fault oracle: the operations before
the first faulting one are performed; the first fault aborts the run
with its error. -/
def runEvents (faults : Event → Option String) : List Event → List Event × Option String
  | [] => ([], none)
  | e :: rest =>
    match faults e with
    | some err => ([], some err)
    | none =>
      let p := runEvents faults rest
      (e :: p.1, p.2)

/-- `main` under the fault oracle: `load_config` runs first, then the
class-count check, then the straight-line remainder. -/
def mainFaults (tl : String → Checkpoint)
    (rt : List (String × String) → List (String × String))
    (faults : Event → Option String)
    (args : Args) (cfg : Config) : List Event × Option String :=
  match faults (Event.loadConfigEv args.config) with
  | some err => ([], some err)
  | none =>
    if cfg.model.arch.head.num_classes ≠ cfg.class_names.length then
      ([Event.loadConfigEv args.config], some (classMismatchMsg cfg))
    else
      let p := runEvents faults (restTrace tl rt args cfg)
      (Event.loadConfigEv args.config :: p.1, p.2)

/-! ## The embedded `parse_args`

`parse_args` declares one positional argument and six options; we model
the parse of a well-formed token list directly: options consume their
value, `--use_mlflow` is a store-true flag, unknown `--` tokens and
malformed values are rejected, the remaining tokens are positionals, and
exactly one positional is accepted. -/

/-- The parsed-arguments record with every option at its declared
default and the positional set to `c`. -/
def defaultArgs (c : String) : Args :=
  ⟨c, -1, none, false, "file:./ml-runs", "default", "default"⟩

/-- A token that looks like an option (starts with `--`). -/
def isOptionLike (t : String) : Bool :=
  t.data.take 2 = ['-', '-']

/-- Parse a digit run into a number (the `int` conversion on the digit
part). -/
def digitsToNat (acc : Nat) : List Char → Option Nat
  | [] => some acc
  | c :: cs =>
    if '0' ≤ c ∧ c ≤ '9' then digitsToNat (acc * 10 + (c.toNat - Char.toNat '0')) cs
    else none

/-- The `type=int` conversion applied to an option value: an optional
minus sign followed by digits. -/
def strToInt (s : String) : Option Int :=
  match s.data with
  | [] => none
  | '-' :: cs =>
    if cs.isEmpty then none else (digitsToNat 0 cs).map (fun n => -(n : Int))
  | cs => (digitsToNat 0 cs).map (fun n => (n : Int))

/-- One left-to-right pass over the tokens, accumulating option values
into `a` and positionals into `pos`. -/
def parseTokens : List String → Args → List String → Option (Args × List String)
  | [], a, pos => some (a, pos)
  | t :: rest, a, pos =>
    if t = "--use_mlflow" then
      parseTokens rest { a with use_mlflow := true } pos
    else if t = "--local_rank" then
      match rest with
      | v :: rest2 =>
        match strToInt v with
        | some i => parseTokens rest2 { a with local_rank := i } pos
        | none => none
      | [] => none
    else if t = "--seed" then
      match rest with
      | v :: rest2 =>
        match strToInt v with
        | some i => parseTokens rest2 { a with seed := some i } pos
        | none => none
      | [] => none
    else if t = "--mlflow_uri" then
      match rest with
      | v :: rest2 => parseTokens rest2 { a with mlflow_uri := v } pos
      | [] => none
    else if t = "--mlflow_run" then
      match rest with
      | v :: rest2 => parseTokens rest2 { a with mlflow_run := v } pos
      | [] => none
    else if t = "--mlflow_experiment" then
      match rest with
      | v :: rest2 => parseTokens rest2 { a with mlflow_experiment := v } pos
      | [] => none
    else if isOptionLike t then none
    else
      parseTokens rest a (pos ++ [t])

/-- The embedding of `parse_args`: parse the argument vector, requiring
exactly one positional (the config path). -/
def parse_args (argv : List String) : Option Args :=
  match parseTokens argv (defaultArgs "") [] with
  | some (a, [c]) => some { a with config := c }
  | _ => none

/-! ## Concrete inputs used to instantiate the theorems -/

/-- A `torch.load` behaviour: every path yields a checkpoint carrying the
lightning version marker. -/
def tlNew : String → Checkpoint := fun _ => ⟨["pytorch-lightning_version", "state_dict"]⟩

/-- A `torch.load` behaviour: every path yields a legacy checkpoint
without the version marker. -/
def tlOld : String → Checkpoint := fun _ => ⟨["state_dict"]⟩

/-- A `resolve_tags` behaviour: context resolution adds one tag. -/
def rtCtx : List (String × String) → List (String × String) :=
  fun ts => ts ++ [("mlflow.user", "ci")]

/-- A consistent sample configuration (1 class, 1 class name). -/
def cfgGood : Config :=
  ⟨⟨⟨⟨1⟩⟩⟩, ["person"], "workspace/run1", ⟨some "old.pth", true, 190, 10⟩,
   ⟨"coco_train", "coco_val"⟩, ⟨96, 8, [0, 1]⟩, ⟨10⟩⟩

/-- The sample configuration with a mismatched class-name list. -/
def cfgBad : Config :=
  { cfgGood with class_names := ["person", "car"] }

/-- The sample configuration without `load_model` or `resume` keys. -/
def cfgNoLoad : Config :=
  { cfgGood with schedule := ⟨none, false, 190, 10⟩ }

/-- Sample parsed arguments with mlflow tracking enabled. -/
def argsMlf : Args :=
  ⟨"cfg.yml", 0, some 42, true, "http://mlflow.local", "run7", "exp3"⟩

/-- Sample parsed arguments with mlflow tracking disabled. -/
def argsPlain : Args :=
  ⟨"cfg.yml", -1, none, false, "file:./ml-runs", "default", "default"⟩

/-- A fault oracle that makes `build_evaluator` raise. -/
def faultsEval : Event → Option String :=
  fun e => match e with
  | Event.buildEvaluatorEv => some "FileNotFoundError: annotations.json"
  | _ => none

/-- A fault oracle that makes `load_config` itself raise. -/
def faultsCfg : Event → Option String :=
  fun e => match e with
  | Event.loadConfigEv _ => some "FileNotFoundError: cfg.yml"
  | _ => none

/-- The fault oracle under which every operation completes. -/
def noFaults : Event → Option String := fun _ => none

/-! ## Helper lemmas -/

/-- A sublist of a middle segment is a sublist of the whole. -/
theorem sublist_mid {α : Type} {l m : List α} (p q : List α) (h : l.Sublist m) :
    l.Sublist (p ++ m ++ q) :=
  h.trans ((List.sublist_append_right p m).trans (List.sublist_append_left (p ++ m) q))

/-- Membership in the seed block. -/
theorem mem_seedEvents (args : Args) (e : Event) :
    e ∈ seedEvents args ↔ ∃ s, args.seed = some s ∧
      (e = Event.logEv ("Set random seed to " ++ toString s) ∨
       e = Event.seedEverythingEv s) := by
  cases hs : args.seed <;> simp [seedEvents, hs]

/-- Membership in the logger-selection block. -/
theorem mem_mlflowEvents (rt : List (String × String) → List (String × String))
    (args : Args) (e : Event) :
    e ∈ mlflowEvents rt args ↔ args.use_mlflow = true ∧
      (e = Event.resolveTagsEv (userTags args) ∨
       e = Event.mlflowLoggerCtorEv args.mlflow_experiment (rt (userTags args)) args.mlflow_uri) := by
  cases hu : args.use_mlflow <;> simp [mlflowEvents, hu]

/-- Membership in the checkpoint-loading block. -/
theorem mem_loadModelEvents (tl : String → Checkpoint) (cfg : Config) (e : Event) :
    e ∈ loadModelEvents tl cfg ↔ ∃ path, cfg.schedule.load_model = some path ∧
      (e = Event.torchLoadEv path ∨
       e = Event.logEv ("Loaded model weight from " ++ path) ∨
       (if "pytorch-lightning_version" ∈ (tl path).keys then
          e = Event.loadModelWeightEv (CkptForm.raw (tl path))
        else
          (e = Event.warnEv deprecationMsg ∨
           e = Event.convertOldModelEv (tl path) ∨
           e = Event.loadModelWeightEv (CkptForm.converted (tl path))))) := by
  cases hlm : cfg.schedule.load_model with
  | none => simp [loadModelEvents, hlm]
  | some path =>
    by_cases hk : "pytorch-lightning_version" ∈ (tl path).keys <;>
      simp [loadModelEvents, hlm, hk] <;> tauto

/-- When the class check passes, the trace of `main` is `load_config`
followed by the straight-line remainder. -/
theorem main_fst (tl : String → Checkpoint)
    (rt : List (String × String) → List (String × String))
    (args : Args) (cfg : Config)
    (heq : cfg.model.arch.head.num_classes = cfg.class_names.length) :
    (main tl rt args cfg).1 = Event.loadConfigEv args.config :: restTrace tl rt args cfg := by
  simp [main, heq]

/-- The trainer constructor appears in the trace exactly with the
argument record `trainerArgsOf`. -/
theorem mem_trainerCtor_iff (tl : String → Checkpoint)
    (rt : List (String × String) → List (String × String))
    (args : Args) (cfg : Config)
    (heq : cfg.model.arch.head.num_classes = cfg.class_names.length)
    (ta : TrainerArgs) :
    Event.trainerCtorEv ta ∈ (main tl rt args cfg).1 ↔ ta = trainerArgsOf rt args cfg := by
  rw [main_fst tl rt args cfg heq]
  simp [restTrace, setupEvents, mem_seedEvents, mem_mlflowEvents, mem_loadModelEvents]

/-! ## The claims -/

/-- C1: if the head's declared class count differs from the length of
the class-names list, `main` raises the `ValueError` immediately after
config loading — the trace holds no other action (no save-directory
creation, no logger, dataset, dataloader, task or trainer construction);
when the two agree no such error is raised and `main` runs to
completion. -/
theorem claim_C1_classcheck (tl : String → Checkpoint)
    (rt : List (String × String) → List (String × String))
    (args : Args) (cfg : Config) :
    (cfg.model.arch.head.num_classes ≠ cfg.class_names.length →
      main tl rt args cfg =
        ([Event.loadConfigEv args.config], some (classMismatchMsg cfg))) ∧
    (cfg.model.arch.head.num_classes = cfg.class_names.length →
      (main tl rt args cfg).2 = none) := by
  constructor
  · intro h
    simp [main, h]
  · intro h
    simp [main, h]

/-- Witness for C1 at concrete inputs. -/
theorem claim_C1_classcheck_witness :
    main tlNew rtCtx argsPlain cfgBad
      = ([Event.loadConfigEv "cfg.yml"], some (classMismatchMsg cfgBad)) ∧
    (main tlNew rtCtx argsPlain cfgGood).2 = none :=
  ⟨(claim_C1_classcheck tlNew rtCtx argsPlain cfgBad).1 (by decide),
   (claim_C1_classcheck tlNew rtCtx argsPlain cfgGood).2 (by decide)⟩

/-- C2: with a `load_model` entry whose loaded checkpoint lacks the
`pytorch-lightning_version` key, `main` emits the deprecation warning,
passes the checkpoint through `convert_old_model`, hands the converted
checkpoint to `load_model_weight` — in that order — and then proceeds
normally to `fit` without an error. -/
theorem claim_C2_legacy_checkpoint (tl : String → Checkpoint)
    (rt : List (String × String) → List (String × String))
    (args : Args) (cfg : Config) (path : String)
    (heq : cfg.model.arch.head.num_classes = cfg.class_names.length)
    (hlm : cfg.schedule.load_model = some path)
    (hkey : "pytorch-lightning_version" ∉ (tl path).keys) :
    ([Event.warnEv deprecationMsg, Event.convertOldModelEv (tl path),
      Event.loadModelWeightEv (CkptForm.converted (tl path)), Event.fitEv]).Sublist
      (main tl rt args cfg).1 ∧
    (main tl rt args cfg).2 = none := by
  constructor
  · rw [main_fst tl rt args cfg heq]
    apply List.Sublist.cons
    have hlme : loadModelEvents tl cfg =
        Event.torchLoadEv path ::
          ([Event.warnEv deprecationMsg, Event.convertOldModelEv (tl path),
            Event.loadModelWeightEv (CkptForm.converted (tl path))] ++
           [Event.logEv ("Loaded model weight from " ++ path)]) := by
      simp [loadModelEvents, hlm, hkey]
    have h1 : ([Event.warnEv deprecationMsg, Event.convertOldModelEv (tl path),
        Event.loadModelWeightEv (CkptForm.converted (tl path))]).Sublist
        (loadModelEvents tl cfg) := by
      rw [hlme]
      exact (List.sublist_append_left _ _).cons _
    show ([Event.warnEv deprecationMsg, Event.convertOldModelEv (tl path),
      Event.loadModelWeightEv (CkptForm.converted (tl path))] ++ [Event.fitEv]).Sublist
      (restTrace tl rt args cfg)
    simp only [restTrace]
    exact List.Sublist.append
      (sublist_mid (setupEvents args cfg) (mlflowEvents rt args) h1)
      ((List.Sublist.refl _).cons _)
  · simp [main, heq]

/-- Witness for C2 at concrete inputs. -/
theorem claim_C2_legacy_checkpoint_witness :
    ([Event.warnEv deprecationMsg, Event.convertOldModelEv (tlOld "old.pth"),
      Event.loadModelWeightEv (CkptForm.converted (tlOld "old.pth")), Event.fitEv]).Sublist
      (main tlOld rtCtx argsPlain cfgGood).1 ∧
    (main tlOld rtCtx argsPlain cfgGood).2 = none :=
  claim_C2_legacy_checkpoint tlOld rtCtx argsPlain cfgGood "old.pth"
    (by decide) rfl (by decide)

/-- C3: with a `load_model` entry whose loaded checkpoint carries the
`pytorch-lightning_version` key, no deprecation warning is emitted,
`convert_old_model` is never invoked, and the checkpoint handed to
`load_model_weight` is exactly the raw loaded one; `main` completes
without error. -/
theorem claim_C3_new_checkpoint (tl : String → Checkpoint)
    (rt : List (String × String) → List (String × String))
    (args : Args) (cfg : Config) (path : String)
    (heq : cfg.model.arch.head.num_classes = cfg.class_names.length)
    (hlm : cfg.schedule.load_model = some path)
    (hkey : "pytorch-lightning_version" ∈ (tl path).keys) :
    (∀ m, Event.warnEv m ∉ (main tl rt args cfg).1) ∧
    (∀ c, Event.convertOldModelEv c ∉ (main tl rt args cfg).1) ∧
    (∀ ck, Event.loadModelWeightEv ck ∈ (main tl rt args cfg).1 ↔
      ck = CkptForm.raw (tl path)) ∧
    (main tl rt args cfg).2 = none := by
  refine ⟨?_, ?_, ?_, by simp [main, heq]⟩ <;>
    intro x <;>
    · rw [main_fst tl rt args cfg heq]
      simp [restTrace, setupEvents, loadModelEvents, hlm, hkey,
        mem_seedEvents, mem_mlflowEvents]

/-- Witness for C3 at concrete inputs. -/
theorem claim_C3_new_checkpoint_witness :
    Event.warnEv deprecationMsg ∉ (main tlNew rtCtx argsPlain cfgGood).1 ∧
    Event.convertOldModelEv (tlNew "old.pth") ∉ (main tlNew rtCtx argsPlain cfgGood).1 ∧
    Event.loadModelWeightEv (CkptForm.raw (tlNew "old.pth")) ∈ (main tlNew rtCtx argsPlain cfgGood).1 ∧
    (main tlNew rtCtx argsPlain cfgGood).2 = none := by
  have h := claim_C3_new_checkpoint tlNew rtCtx argsPlain cfgGood "old.pth"
    (by decide) rfl (by decide)
  exact ⟨h.1 _, h.2.1 _, (h.2.2.1 _).mpr rfl, h.2.2.2⟩

/-- C4: when `--use_mlflow` is absent, no `MLFlowLogger` is constructed
anywhere in the run, and the (unique) trainer construction receives the
literal `True` as its `logger` argument. -/
theorem claim_C4_no_mlflow_logger (tl : String → Checkpoint)
    (rt : List (String × String) → List (String × String))
    (args : Args) (cfg : Config)
    (heq : cfg.model.arch.head.num_classes = cfg.class_names.length)
    (hmlf : args.use_mlflow = false) :
    (∀ ex tg u, Event.mlflowLoggerCtorEv ex tg u ∉ (main tl rt args cfg).1) ∧
    (∀ ta, Event.trainerCtorEv ta ∈ (main tl rt args cfg).1 ↔
      ta = trainerArgsOf rt args cfg) ∧
    (trainerArgsOf rt args cfg).logger = LoggerArg.boolTrue := by
  refine ⟨?_, mem_trainerCtor_iff tl rt args cfg heq, ?_⟩
  · intro ex tg u
    rw [main_fst tl rt args cfg heq]
    simp [restTrace, setupEvents, mem_seedEvents, mem_mlflowEvents,
      mem_loadModelEvents, hmlf]
  · simp [trainerArgsOf, usedLogger, hmlf]

/-- Witness for C4 at concrete inputs. -/
theorem claim_C4_no_mlflow_logger_witness :
    Event.mlflowLoggerCtorEv "exp3" (rtCtx (userTags argsPlain)) "http://mlflow.local"
      ∉ (main tlNew rtCtx argsPlain cfgGood).1 ∧
    (Event.trainerCtorEv (trainerArgsOf rtCtx argsPlain cfgGood)
      ∈ (main tlNew rtCtx argsPlain cfgGood).1) ∧
    (trainerArgsOf rtCtx argsPlain cfgGood).logger = LoggerArg.boolTrue := by
  have h := claim_C4_no_mlflow_logger tlNew rtCtx argsPlain cfgGood (by decide) rfl
  exact ⟨h.1 _ _ _, (h.2.1 _).mpr rfl, h.2.2⟩

/-- C5: when `--use_mlflow` is present, the run-name tag
`MLFLOW_RUN_NAME` is set to `--mlflow_run` in the user tag mapping, and
that mapping is resolved (`resolve_tags`) with the result passed to the
`MLFlowLogger` constructor — the tag assignment and resolution precede
the logger construction in the trace. -/
theorem claim_C5_mlflow_tags (tl : String → Checkpoint)
    (rt : List (String × String) → List (String × String))
    (args : Args) (cfg : Config)
    (heq : cfg.model.arch.head.num_classes = cfg.class_names.length)
    (hmlf : args.use_mlflow = true) :
    List.lookup MLFLOW_RUN_NAME (userTags args) = some args.mlflow_run ∧
    ([Event.resolveTagsEv (userTags args),
      Event.mlflowLoggerCtorEv args.mlflow_experiment (rt (userTags args))
        args.mlflow_uri]).Sublist (main tl rt args cfg).1 := by
  constructor
  · simp [userTags, List.lookup]
  · rw [main_fst tl rt args cfg heq]
    apply List.Sublist.cons
    have hm : mlflowEvents rt args =
        [Event.resolveTagsEv (userTags args),
         Event.mlflowLoggerCtorEv args.mlflow_experiment (rt (userTags args))
           args.mlflow_uri] := by
      simp [mlflowEvents, hmlf]
    simp only [restTrace]
    rw [← hm]
    exact sublist_mid (setupEvents args cfg ++ loadModelEvents tl cfg) _
      (List.Sublist.refl _)

/-- Witness for C5 at concrete inputs. -/
theorem claim_C5_mlflow_tags_witness :
    List.lookup MLFLOW_RUN_NAME (userTags argsMlf) = some "run7" ∧
    ([Event.resolveTagsEv (userTags argsMlf),
      Event.mlflowLoggerCtorEv "exp3" (rtCtx (userTags argsMlf))
        "http://mlflow.local"]).Sublist (main tlNew rtCtx argsMlf cfgGood).1 :=
  claim_C5_mlflow_tags tlNew rtCtx argsMlf cfgGood (by decide) rfl

/-- C6: the trainer is constructed exactly once, and its
`resume_from_checkpoint` argument is `save_dir/model_last.ckpt` when the
schedule has a `resume` entry and `None` otherwise. -/
theorem claim_C6_resume_path (tl : String → Checkpoint)
    (rt : List (String × String) → List (String × String))
    (args : Args) (cfg : Config)
    (heq : cfg.model.arch.head.num_classes = cfg.class_names.length) :
    (∀ ta, Event.trainerCtorEv ta ∈ (main tl rt args cfg).1 ↔
      ta = trainerArgsOf rt args cfg) ∧
    (cfg.schedule.resume = true →
      (trainerArgsOf rt args cfg).resume_from_checkpoint =
        some (pathJoin cfg.save_dir "model_last.ckpt")) ∧
    (cfg.schedule.resume = false →
      (trainerArgsOf rt args cfg).resume_from_checkpoint = none) := by
  refine ⟨mem_trainerCtor_iff tl rt args cfg heq, ?_, ?_⟩ <;>
    intro h <;> simp [trainerArgsOf, model_resume_path, h]

/-- Witness for C6 at concrete inputs. -/
theorem claim_C6_resume_path_witness :
    (Event.trainerCtorEv (trainerArgsOf rtCtx argsPlain cfgGood)
      ∈ (main tlNew rtCtx argsPlain cfgGood).1) ∧
    (trainerArgsOf rtCtx argsPlain cfgGood).resume_from_checkpoint =
      some (pathJoin "workspace/run1" "model_last.ckpt") ∧
    (trainerArgsOf rtCtx argsPlain cfgNoLoad).resume_from_checkpoint = none := by
  have h := claim_C6_resume_path tlNew rtCtx argsPlain cfgGood (by decide)
  have h2 := claim_C6_resume_path tlNew rtCtx argsPlain cfgNoLoad (by decide)
  exact ⟨(h.1 _).mpr rfl, h.2.1 rfl, h2.2.2 rfl⟩

/-- C9: both the log style of the `TrainingTask` and the `ProgressBar`
refresh rate are functions of `--use_mlflow` alone: the task is built
with `Lightning` and refresh rate 1 when the flag is set, and with
`NanoDet` and refresh rate 0 when it is not. -/
theorem claim_C9_log_style (tl : String → Checkpoint)
    (rt : List (String × String) → List (String × String))
    (args : Args) (cfg : Config)
    (heq : cfg.model.arch.head.num_classes = cfg.class_names.length) :
    (∀ s, Event.taskCtorEv s ∈ (main tl rt args cfg).1 ↔
      s = (if args.use_mlflow then "Lightning" else "NanoDet")) ∧
    (∀ ta, Event.trainerCtorEv ta ∈ (main tl rt args cfg).1 →
      ta.bar_refresh = (if args.use_mlflow then 1 else 0)) := by
  constructor
  · intro s
    rw [main_fst tl rt args cfg heq]
    simp [restTrace, setupEvents, logStyleOf, mem_seedEvents, mem_mlflowEvents,
      mem_loadModelEvents]
  · intro ta hta
    rw [mem_trainerCtor_iff tl rt args cfg heq] at hta
    subst hta
    simp [trainerArgsOf, barRefreshOf]

/-- Witness for C9 at concrete inputs. -/
theorem claim_C9_log_style_witness :
    (Event.taskCtorEv "Lightning" ∈ (main tlNew rtCtx argsMlf cfgGood).1) ∧
    (trainerArgsOf rtCtx argsMlf cfgGood).bar_refresh = 1 ∧
    (Event.taskCtorEv "NanoDet" ∈ (main tlNew rtCtx argsPlain cfgGood).1) ∧
    (trainerArgsOf rtCtx argsPlain cfgGood).bar_refresh = 0 := by
  have h1 := claim_C9_log_style tlNew rtCtx argsMlf cfgGood (by decide)
  have h2 := claim_C9_log_style tlNew rtCtx argsPlain cfgGood (by decide)
  refine ⟨(h1.1 _).mpr (by decide), ?_, (h2.1 _).mpr (by decide), ?_⟩
  · exact h1.2 _ ((mem_trainerCtor_iff tlNew rtCtx argsMlf cfgGood (by decide) _).mpr rfl)
  · exact h2.2 _ ((mem_trainerCtor_iff tlNew rtCtx argsPlain cfgGood (by decide) _).mpr rfl)

/-- C10: a dataloader construction occurs exactly for the train dataset
(built in `train` mode) with shuffling and `drop_last`, and for the val
dataset (built in `test` mode) without shuffling and keeping the last
batch; both use the config's per-GPU batch size and worker count, pin
memory, and the shared `collate_function`. -/
theorem claim_C10_dataloaders (tl : String → Checkpoint)
    (rt : List (String × String) → List (String × String))
    (args : Args) (cfg : Config)
    (heq : cfg.model.arch.head.num_classes = cfg.class_names.length) :
    (Event.buildDatasetEv cfg.data.train "train" ∈ (main tl rt args cfg).1) ∧
    (Event.buildDatasetEv cfg.data.val "test" ∈ (main tl rt args cfg).1) ∧
    (∀ ds b sh w pm cf dl,
      Event.dataLoaderEv ds b sh w pm cf dl ∈ (main tl rt args cfg).1 ↔
        (b = cfg.device.batchsize_per_gpu ∧ w = cfg.device.workers_per_gpu ∧
         pm = true ∧ cf = "collate_function" ∧
         ((ds = ⟨cfg.data.train, "train"⟩ ∧ sh = true ∧ dl = true) ∨
          (ds = ⟨cfg.data.val, "test"⟩ ∧ sh = false ∧ dl = false)))) := by
  rw [main_fst tl rt args cfg heq]
  refine ⟨by simp [restTrace, setupEvents], by simp [restTrace, setupEvents], ?_⟩
  intro ds b sh w pm cf dl
  simp only [restTrace, setupEvents, List.mem_cons, List.mem_append,
    mem_seedEvents, mem_mlflowEvents, mem_loadModelEvents]
  constructor
  · rintro (h | h) <;> simp_all
    tauto
  · rintro ⟨hb, hw, hpm, hcf, h | h⟩ <;> simp_all

/-- Witness for C10 at concrete inputs. -/
theorem claim_C10_dataloaders_witness :
    (Event.buildDatasetEv "coco_train" "train" ∈ (main tlNew rtCtx argsPlain cfgGood).1) ∧
    (Event.buildDatasetEv "coco_val" "test" ∈ (main tlNew rtCtx argsPlain cfgGood).1) ∧
    (Event.dataLoaderEv ⟨"coco_train", "train"⟩ 96 true 8 true "collate_function" true
      ∈ (main tlNew rtCtx argsPlain cfgGood).1) ∧
    (Event.dataLoaderEv ⟨"coco_val", "test"⟩ 96 false 8 true "collate_function" false
      ∈ (main tlNew rtCtx argsPlain cfgGood).1) := by
  have h := claim_C10_dataloaders tlNew rtCtx argsPlain cfgGood (by decide)
  exact ⟨h.1, h.2.1,
    (h.2.2 _ _ _ _ _ _ _).mpr (by simp [cfgGood]),
    (h.2.2 _ _ _ _ _ _ _).mpr (by simp [cfgGood])⟩

/-- C7: `parse_args` takes exactly one positional argument (the config
path) plus `--local_rank` (int, default `-1`), `--seed` (int, default
`None`), the flag `--use_mlflow` (default false), and the string options
`--mlflow_uri`, `--mlflow_run`, `--mlflow_experiment` with defaults
`file:./ml-runs`, `default`, `default`; every omitted option parses to
its default, each option is accepted, and zero or two positionals are
rejected. -/
theorem claim_C7_parse_args :
    (∀ c, isOptionLike c = false → parse_args [c] = some (defaultArgs c)) ∧
    (∀ c, defaultArgs c =
      ⟨c, -1, none, false, "file:./ml-runs", "default", "default"⟩) ∧
    parse_args [] = none ∧
    parse_args ["a.yml", "b.yml"] = none ∧
    parse_args ["a.yml", "--local_rank", "3"]
      = some { defaultArgs "a.yml" with local_rank := 3 } ∧
    parse_args ["a.yml", "--seed", "42"]
      = some { defaultArgs "a.yml" with seed := some 42 } ∧
    parse_args ["a.yml", "--use_mlflow"]
      = some { defaultArgs "a.yml" with use_mlflow := true } ∧
    parse_args ["a.yml", "--mlflow_uri", "http://x"]
      = some { defaultArgs "a.yml" with mlflow_uri := "http://x" } ∧
    parse_args ["a.yml", "--mlflow_run", "r1"]
      = some { defaultArgs "a.yml" with mlflow_run := "r1" } ∧
    parse_args ["a.yml", "--mlflow_experiment", "e1"]
      = some { defaultArgs "a.yml" with mlflow_experiment := "e1" } := by
  refine ⟨?_, fun c => rfl, by decide, by decide, by decide, by decide,
    by decide, by decide, by decide, by decide⟩
  intro c hc
  have h1 : ¬ c = "--use_mlflow" := fun h => by rw [h] at hc; exact absurd hc (by decide)
  have h2 : ¬ c = "--local_rank" := fun h => by rw [h] at hc; exact absurd hc (by decide)
  have h3 : ¬ c = "--seed" := fun h => by rw [h] at hc; exact absurd hc (by decide)
  have h4 : ¬ c = "--mlflow_uri" := fun h => by rw [h] at hc; exact absurd hc (by decide)
  have h5 : ¬ c = "--mlflow_run" := fun h => by rw [h] at hc; exact absurd hc (by decide)
  have h6 : ¬ c = "--mlflow_experiment" := fun h => by rw [h] at hc; exact absurd hc (by decide)
  simp [parse_args, parseTokens, h1, h2, h3, h4, h5, h6, hc, defaultArgs]

/-- Witness for C7 at a concrete config path. -/
theorem claim_C7_parse_args_witness :
    parse_args ["config/nanodet.yml"] = some (defaultArgs "config/nanodet.yml") :=
  claim_C7_parse_args.1 "config/nanodet.yml" (by decide)

/-- The run of a straight-line event list under a fault oracle: exactly
the operations before the first fault are performed, and the outcome is
exactly the first fault's error. -/
theorem runEvents_spec (faults : Event → Option String) (l : List Event) :
    runEvents faults l =
      (l.takeWhile (fun e => (faults e).isNone),
       (l.find? (fun e => (faults e).isSome)).bind faults) := by
  induction l with
  | nil => simp [runEvents]
  | cons e rest ih =>
    cases hf : faults e with
    | none => simp [runEvents, hf, ih]
    | some err => simp [runEvents, hf]

/-- Under the no-fault oracle every operation is performed. -/
theorem runEvents_noFaults (l : List Event) : runEvents noFaults l = (l, none) := by
  induction l with
  | nil => simp [runEvents]
  | cons e rest ih => simp [runEvents, noFaults, ih]

/-- C8: apart from the class-count check, `main` installs no exception
handler: under any fault oracle, an exception raised by `load_config`
itself aborts the run verbatim with nothing performed; after a
successful `load_config`, the run performs exactly the operations
preceding the first failing one and the error that surfaces is exactly
the error that operation raised; every surfaced error is the verbatim
error of some called operation (no rollback, no retry, no
substitution); and the no-fault run coincides with `main`. -/
theorem claim_C8_no_handlers (tl : String → Checkpoint)
    (rt : List (String × String) → List (String × String))
    (faults : Event → Option String) (args : Args) (cfg : Config)
    (heq : cfg.model.arch.head.num_classes = cfg.class_names.length) :
    (∀ err, faults (Event.loadConfigEv args.config) = some err →
      mainFaults tl rt faults args cfg = ([], some err)) ∧
    (faults (Event.loadConfigEv args.config) = none →
      (mainFaults tl rt faults args cfg).1 =
        Event.loadConfigEv args.config ::
          (restTrace tl rt args cfg).takeWhile (fun e => (faults e).isNone) ∧
      (mainFaults tl rt faults args cfg).2 =
        ((restTrace tl rt args cfg).find? (fun e => (faults e).isSome)).bind faults) ∧
    (∀ err, (mainFaults tl rt faults args cfg).2 = some err →
      faults (Event.loadConfigEv args.config) = some err ∨
      ∃ e, e ∈ restTrace tl rt args cfg ∧ faults e = some err) ∧
    mainFaults tl rt noFaults args cfg = main tl rt args cfg := by
  refine ⟨?_, ?_, ?_, ?_⟩
  · intro err herr
    simp [mainFaults, herr]
  · intro hok
    have hm : mainFaults tl rt faults args cfg =
        (Event.loadConfigEv args.config ::
          (restTrace tl rt args cfg).takeWhile (fun e => (faults e).isNone),
         ((restTrace tl rt args cfg).find? (fun e => (faults e).isSome)).bind faults) := by
      simp [mainFaults, hok, heq, runEvents_spec]
    exact ⟨by rw [hm], by rw [hm]⟩
  · intro err herr
    cases hlc : faults (Event.loadConfigEv args.config) with
    | some e0 =>
      have hm0 : mainFaults tl rt faults args cfg = ([], some e0) := by
        simp [mainFaults, hlc]
      rw [hm0] at herr
      simp at herr
      subst herr
      exact Or.inl rfl
    | none =>
      have hm : mainFaults tl rt faults args cfg =
          (Event.loadConfigEv args.config ::
            (restTrace tl rt args cfg).takeWhile (fun e => (faults e).isNone),
           ((restTrace tl rt args cfg).find? (fun e => (faults e).isSome)).bind faults) := by
        simp [mainFaults, hlc, heq, runEvents_spec]
      rw [hm] at herr
      refine Or.inr ?_
      cases hfind : (restTrace tl rt args cfg).find? (fun e => (faults e).isSome) with
      | none =>
        rw [hfind] at herr
        simp at herr
      | some e =>
        rw [hfind] at herr
        exact ⟨e, List.mem_of_find?_eq_some hfind, by simpa using herr⟩
  · simp [mainFaults, main, noFaults, heq, runEvents_noFaults]

/-- Witness for C8: a fault injected at `load_config` aborts the run with
that very error and nothing performed, a fault injected at
`build_evaluator` surfaces verbatim, and the fault-free run is `main`. -/
theorem claim_C8_no_handlers_witness :
    mainFaults tlNew rtCtx faultsCfg argsPlain cfgGood
      = ([], some "FileNotFoundError: cfg.yml") ∧
    (mainFaults tlNew rtCtx faultsEval argsPlain cfgGood).2 =
      some "FileNotFoundError: annotations.json" ∧
    mainFaults tlNew rtCtx noFaults argsPlain cfgGood = main tlNew rtCtx argsPlain cfgGood := by
  have hc := claim_C8_no_handlers tlNew rtCtx faultsCfg argsPlain cfgGood (by decide)
  have h := claim_C8_no_handlers tlNew rtCtx faultsEval argsPlain cfgGood (by decide)
  refine ⟨hc.1 _ rfl, ?_, h.2.2.2⟩
  rw [(h.2.1 rfl).2]
  decide

end TrainMlflow
